import Mathlib

/-!
# Verification of the Project-Management-Portal backend (`src/server.js`)

Shallow embedding of the Express + SQLite backend in `src/server.js`.

Modelling conventions:

* JavaScript values that flow through request bodies and database rows are
  modelled by `JVal` (null / undefined / booleans / numbers / strings /
  arrays / objects).  JS truthiness (`!x`, `x || d`, `x ? a : b`,
  `Boolean(x)`) is `JVal.truthy`.
* The sqlite3 driver binds `undefined` and `null` parameters as SQL NULL and
  booleans as the integers 1/0; `bindParam` models this.
* SQL `WHERE col = ?` comparison is `sqlEq` (NULL compares false against
  everything, values of different storage classes compare false).
* Each table is a list of row records plus the next AUTOINCREMENT id.
  Handlers become pure functions from request body + store to an
  `HttpResp` (status + JSON body as a key/value list, with `undefined`
  valued keys dropped, as `res.json`/`JSON.stringify` does) and the new
  store.  Timestamps (`new Date().toISOString()`) are explicit `now`
  parameters.
* `bcrypt.hash` / `bcrypt.compare` are external primitives; the handlers
  are parameterised by the hash/compare function they call.
-/

/-- JavaScript/JSON values as they appear in request bodies and rows. -/
inductive JVal where
  | null
  | undef
  | bool (b : Bool)
  | num (n : Int)
  | str (s : String)
  | arr (xs : List JVal)
  | obj (fs : List (String × JVal))

/-- JavaScript truthiness: `undefined`, `null`, `false`, `0`, `""` are
falsy; objects and arrays (even empty) are truthy. -/
def JVal.truthy : JVal → Bool
  | .null => false
  | .undef => false
  | .bool b => b
  | .num n => n != 0
  | .str s => s != ""
  | .arr _ => true
  | .obj _ => true

/-- JavaScript `a || b`. -/
def jsOr (a b : JVal) : JVal := if a.truthy then a else b

/-- Is the value `undefined`? (`JSON.stringify` drops such object keys.) -/
def JVal.isUndef : JVal → Bool
  | .undef => true
  | _ => false

/-- sqlite3 parameter binding: `undefined`/`null` become SQL NULL, booleans
become the integers 1/0, numbers and strings are stored as given. -/
def bindParam : JVal → JVal
  | .undef => .null
  | .null => .null
  | .bool b => .num (if b then 1 else 0)
  | v => v

/-- SQL `=` on stored values: NULL is never equal to anything and values of
different storage classes are unequal. -/
def sqlEq : JVal → JVal → Bool
  | .num a, .num b => a == b
  | .str a, .str b => a == b
  | _, _ => false

/-- One key of a JSON response object: a key whose value is `undefined` is
dropped by `JSON.stringify`, every other key is kept. -/
def jf (k : String) (v : JVal) : List (String × JVal) :=
  if v.isUndef then [] else [(k, v)]

/-- An HTTP response: status code plus JSON object body. -/
structure HttpResp where
  status : Nat
  body : List (String × JVal)

/-- `email.toLowerCase()`, character-wise (ASCII case folding). -/
def jsToLower (s : String) : String := String.mk (s.data.map Char.toLower)

/-- `s.trim()`: strip leading and trailing whitespace. -/
def jsTrim (s : String) : String :=
  String.mk (((s.data.dropWhile Char.isWhitespace).reverse.dropWhile
    Char.isWhitespace).reverse)

/-- `email.toLowerCase().trim()` as done by the auth handlers. -/
def normEmail (s : String) : String := jsTrim (jsToLower s)

/-- Truthiness of an optional request-body string (JS `!email`):
present and non-empty. -/
def presentStr : Option String → Bool
  | some s => s != ""
  | none => false

-- ===================== users table / AUTH API =====================

/-- A row of the `users` table. -/
structure UserRow where
  id : Nat
  email : String
  password : String

/-- The `users` table: rows plus the next AUTOINCREMENT id. -/
structure UserStore where
  rows : List UserRow
  nextId : Nat

/-- `POST /register` (src/server.js:338-375): requires email and password,
password at least 6 characters; hashes the password and inserts the
case-folded trimmed email; a UNIQUE violation maps to 400 "User already
exists."; success echoes the normalized email and the new id. -/
def register (hashFn : String → String) (email password : Option String)
    (st : UserStore) : HttpResp × UserStore :=
  if !(presentStr email) || !(presentStr password) then
    (⟨400, [("success", .bool false),
            ("message", .str "Email and password are required.")]⟩, st)
  else
    let e := email.getD ""
    let p := password.getD ""
    if p.length < 6 then
      (⟨400, [("success", .bool false),
              ("message", .str "Password must be at least 6 characters long.")]⟩, st)
    else
      let ne := normEmail e
      if st.rows.any (fun r => r.email == ne) then
        (⟨400, [("success", .bool false),
                ("message", .str "User already exists.")]⟩, st)
      else
        (⟨200, [("success", .bool true),
                ("id", .num st.nextId),
                ("email", .str ne),
                ("message", .str "Account created successfully!")]⟩,
         ⟨st.rows ++ [⟨st.nextId, ne, hashFn p⟩], st.nextId + 1⟩)

/-- `POST /signup` (src/server.js:378-415): kept for backward
compatibility; same validation, hashing, insert and responses as
`/register`. -/
def signup (hashFn : String → String) (email password : Option String)
    (st : UserStore) : HttpResp × UserStore :=
  if !(presentStr email) || !(presentStr password) then
    (⟨400, [("success", .bool false),
            ("message", .str "Email and password are required.")]⟩, st)
  else
    let e := email.getD ""
    let p := password.getD ""
    if p.length < 6 then
      (⟨400, [("success", .bool false),
              ("message", .str "Password must be at least 6 characters long.")]⟩, st)
    else
      let ne := normEmail e
      if st.rows.any (fun r => r.email == ne) then
        (⟨400, [("success", .bool false),
                ("message", .str "User already exists.")]⟩, st)
      else
        (⟨200, [("success", .bool true),
                ("id", .num st.nextId),
                ("email", .str ne),
                ("message", .str "Account created successfully!")]⟩,
         ⟨st.rows ++ [⟨st.nextId, ne, hashFn p⟩], st.nextId + 1⟩)

/-- `POST /login` (src/server.js:418-456): requires email and password;
looks the user up by normalized email; an unknown email and a failed
`bcrypt.compare` both yield 400 "Invalid credentials."; success returns
the stored email. -/
def login (cmp : String → String → Bool) (email password : Option String)
    (st : UserStore) : HttpResp :=
  if !(presentStr email) || !(presentStr password) then
    ⟨400, [("success", .bool false),
           ("message", .str "Email and password are required.")]⟩
  else
    let e := email.getD ""
    let p := password.getD ""
    match st.rows.find? (fun r => r.email == normEmail e) with
    | none =>
        ⟨400, [("success", .bool false),
               ("message", .str "Invalid credentials.")]⟩
    | some row =>
        if cmp p row.password then
          ⟨200, [("success", .bool true),
                 ("email", .str row.email),
                 ("message", .str "Login successful!")]⟩
        else
          ⟨400, [("success", .bool false),
                 ("message", .str "Invalid credentials.")]⟩

-- ===================== projects table / PROJECTS API =====================

/-- A row of the `projects` table.  The ~30 description columns
(`project_title`, `notes`, …, `approval_signature`) are never touched by
the routes modelled here and stay NULL; they are omitted from the row. -/
structure ProjectRow where
  id : Nat
  name : JVal
  owner_email : JVal
  colleagues : JVal
  progress : JVal

structure ProjStore where
  rows : List ProjectRow
  nextId : Nat

/-- Request body of `POST /projects` / `PUT /projects/:id`. -/
structure ProjectBody where
  name : JVal
  owner_email : JVal
  colleagues : JVal
  progress : JVal

/-- `POST /projects` (src/server.js:459-477): requires truthy `name` and
`owner_email` (else 400, no insert); inserts with `colleagues || "[]"` and
`progress || 0`; the response echoes the raw `colleagues` from the body
(dropped from the JSON when `undefined`) and `progress || 0`. -/
def createProject (b : ProjectBody) (st : ProjStore) : HttpResp × ProjStore :=
  if !b.name.truthy || !b.owner_email.truthy then
    (⟨400, [("error", .str "Project name and owner email are required.")]⟩, st)
  else
    let row : ProjectRow :=
      ⟨st.nextId, bindParam b.name, bindParam b.owner_email,
       bindParam (jsOr b.colleagues (.str "[]")),
       bindParam (jsOr b.progress (.num 0))⟩
    (⟨200, jf "id" (.num st.nextId) ++ jf "name" b.name ++
           jf "owner_email" b.owner_email ++ jf "colleagues" b.colleagues ++
           jf "progress" (jsOr b.progress (.num 0))⟩,
     ⟨st.rows ++ [row], st.nextId + 1⟩)

/-- `GET /projects/:email` (src/server.js:479-488):
`SELECT * FROM projects WHERE owner_email = ?` (no ORDER BY). -/
def getProjectsByOwner (st : ProjStore) (email : String) : List ProjectRow :=
  st.rows.filter (fun r => sqlEq r.owner_email (bindParam (.str email)))

/-- Row transformation of `PUT /projects/:id` (src/server.js:490-500):
`UPDATE projects SET name = ?, colleagues = ?, progress = ? WHERE id = ?`
with parameters `[name, colleagues, progress !== undefined ? progress : 0]`. -/
def updateProjectRows (rows : List ProjectRow) (i : Nat) (b : ProjectBody) :
    List ProjectRow :=
  rows.map (fun r =>
    if r.id = i then
      { r with name := bindParam b.name,
               colleagues := bindParam b.colleagues,
               progress := bindParam
                 (if b.progress.isUndef then .num 0 else b.progress) }
    else r)

-- ===================== ideas / notes / career_goals / future_work /
-- deadlines tables and APIs =====================

structure IdeaRow where
  id : Nat
  user_email : JVal
  title : JVal
  content : JVal
  category : JVal
  created_date : JVal

structure IdeaStore where
  rows : List IdeaRow
  nextId : Nat

/-- `POST /ideas` (src/server.js:576-587): no required-field validation;
`category || 'general'`, `created_date || now`; inserts and echoes the raw
body fields plus the effective date. -/
def createIdea (user_email title content category created_date : JVal)
    (now : String) (st : IdeaStore) : HttpResp × IdeaStore :=
  let date := jsOr created_date (.str now)
  let row : IdeaRow :=
    ⟨st.nextId, bindParam user_email, bindParam title, bindParam content,
     bindParam (jsOr category (.str "general")), bindParam date⟩
  (⟨200, jf "id" (.num st.nextId) ++ jf "user_email" user_email ++
         jf "title" title ++ jf "content" content ++
         jf "category" category ++ jf "created_date" date⟩,
   ⟨st.rows ++ [row], st.nextId + 1⟩)

/-- Row transformation of `PUT /ideas/:id` (src/server.js:589-599):
`UPDATE ideas SET title = ?, content = ?, category = ? WHERE id = ?`. -/
def updateIdeaRows (rows : List IdeaRow) (i : Nat)
    (title content category : JVal) : List IdeaRow :=
  rows.map (fun r =>
    if r.id = i then
      { r with title := bindParam title, content := bindParam content,
               category := bindParam category }
    else r)

structure NoteRow where
  id : Nat
  user_email : JVal
  title : JVal
  content : JVal
  created_date : JVal

structure NoteStore where
  rows : List NoteRow
  nextId : Nat

/-- `POST /notes` (src/server.js:616-627): no required-field validation;
`created_date || now`; inserts and echoes the body. -/
def createNote (user_email title content created_date : JVal)
    (now : String) (st : NoteStore) : HttpResp × NoteStore :=
  let date := jsOr created_date (.str now)
  let row : NoteRow :=
    ⟨st.nextId, bindParam user_email, bindParam title, bindParam content,
     bindParam date⟩
  (⟨200, jf "id" (.num st.nextId) ++ jf "user_email" user_email ++
         jf "title" title ++ jf "content" content ++
         jf "created_date" date⟩,
   ⟨st.rows ++ [row], st.nextId + 1⟩)

/-- Row transformation of `PUT /notes/:id` (src/server.js:629-639):
`UPDATE notes SET title = ?, content = ? WHERE id = ?`. -/
def updateNoteRows (rows : List NoteRow) (i : Nat) (title content : JVal) :
    List NoteRow :=
  rows.map (fun r =>
    if r.id = i then
      { r with title := bindParam title, content := bindParam content }
    else r)

structure CareerGoalRow where
  id : Nat
  user_email : JVal
  title : JVal
  description : JVal
  progress : JVal
  goal_type : JVal
  target_date : JVal
  total_stages : JVal
  current_stage : JVal
  start_date : JVal
  stage_description : JVal
  created_date : JVal

structure CareerGoalStore where
  rows : List CareerGoalRow
  nextId : Nat

/-- `POST /career_goals` (src/server.js:663-674): no required-field
validation; defaults `progress || 0`, `goal_type || 'general'`,
`total_stages || 5`, `current_stage || 0`, `created_date || now`. -/
def createCareerGoal (user_email title description progress goal_type
    target_date total_stages current_stage start_date stage_description
    created_date : JVal) (now : String) (st : CareerGoalStore) :
    HttpResp × CareerGoalStore :=
  let date := jsOr created_date (.str now)
  let row : CareerGoalRow :=
    ⟨st.nextId, bindParam user_email, bindParam title, bindParam description,
     bindParam (jsOr progress (.num 0)),
     bindParam (jsOr goal_type (.str "general")), bindParam target_date,
     bindParam (jsOr total_stages (.num 5)),
     bindParam (jsOr current_stage (.num 0)), bindParam start_date,
     bindParam stage_description, bindParam date⟩
  (⟨200, jf "id" (.num st.nextId) ++ jf "user_email" user_email ++
         jf "title" title ++ jf "description" description ++
         jf "progress" progress ++ jf "goal_type" goal_type ++
         jf "target_date" target_date ++ jf "total_stages" total_stages ++
         jf "current_stage" current_stage ++ jf "start_date" start_date ++
         jf "stage_description" stage_description ++
         jf "created_date" date⟩,
   ⟨st.rows ++ [row], st.nextId + 1⟩)

structure FutureWorkRow where
  id : Nat
  user_email : JVal
  title : JVal
  description : JVal
  priority : JVal
  timeline : JVal
  created_date : JVal

structure FutureWorkStore where
  rows : List FutureWorkRow
  nextId : Nat

/-- `POST /future_work` (src/server.js:710-721): no required-field
validation; defaults `priority || 'medium'`, `created_date || now`. -/
def createFutureWork (user_email title description priority timeline
    created_date : JVal) (now : String) (st : FutureWorkStore) :
    HttpResp × FutureWorkStore :=
  let date := jsOr created_date (.str now)
  let row : FutureWorkRow :=
    ⟨st.nextId, bindParam user_email, bindParam title, bindParam description,
     bindParam (jsOr priority (.str "medium")), bindParam timeline,
     bindParam date⟩
  (⟨200, jf "id" (.num st.nextId) ++ jf "user_email" user_email ++
         jf "title" title ++ jf "description" description ++
         jf "priority" priority ++ jf "timeline" timeline ++
         jf "created_date" date⟩,
   ⟨st.rows ++ [row], st.nextId + 1⟩)

structure DeadlineRow where
  id : Nat
  user_email : JVal
  title : JVal
  description : JVal
  due_date : JVal
  priority : JVal
  status : JVal
  created_date : JVal

structure DeadlineStore where
  rows : List DeadlineRow
  nextId : Nat

/-- `POST /deadlines` (src/server.js:750-761): no required-field
validation; defaults `priority || 'medium'`, `status || 'pending'`,
`created_date || now`. -/
def createDeadline (user_email title description due_date priority status
    created_date : JVal) (now : String) (st : DeadlineStore) :
    HttpResp × DeadlineStore :=
  let date := jsOr created_date (.str now)
  let row : DeadlineRow :=
    ⟨st.nextId, bindParam user_email, bindParam title, bindParam description,
     bindParam due_date, bindParam (jsOr priority (.str "medium")),
     bindParam (jsOr status (.str "pending")), bindParam date⟩
  (⟨200, jf "id" (.num st.nextId) ++ jf "user_email" user_email ++
         jf "title" title ++ jf "description" description ++
         jf "due_date" due_date ++ jf "priority" priority ++
         jf "status" status ++ jf "created_date" date⟩,
   ⟨st.rows ++ [row], st.nextId + 1⟩)

/-- Row transformation of `PUT /deadlines/:id` (src/server.js:763-773):
`UPDATE deadlines SET title = ?, description = ?, due_date = ?,
priority = ?, status = ? WHERE id = ?`. -/
def updateDeadlineRows (rows : List DeadlineRow) (i : Nat)
    (title description due_date priority status : JVal) : List DeadlineRow :=
  rows.map (fun r =>
    if r.id = i then
      { r with title := bindParam title, description := bindParam description,
               due_date := bindParam due_date,
               priority := bindParam priority, status := bindParam status }
    else r)

-- ===================== calendar_events table / EVENTS APIs =====================

/-- A row of the `calendar_events` table. -/
structure EventRow where
  id : Nat
  user_email : JVal
  title : JVal
  description : JVal
  event_date : JVal
  start_time : JVal
  end_time : JVal
  location : JVal
  category : JVal
  attendees : JVal
  reminder : JVal
  is_all_day : JVal
  recurrence : JVal
  recurrence_end : JVal
  show_as : JVal
  priority : JVal
  is_online : JVal
  meeting_link : JVal
  attachments : JVal
  repeat_weekly : JVal
  created_date : JVal
  modified_date : JVal

structure EvStore where
  rows : List EventRow
  nextId : Nat

/-- Body of the canonical `POST /events` / `PUT /events/:id`. -/
structure EventBody where
  userEmail : JVal
  title : JVal
  description : JVal
  date : JVal
  start : JVal
  end_ : JVal
  location : JVal
  category : JVal
  attendees : JVal
  reminder : JVal
  isAllDay : JVal
  recurrence : JVal
  recurrenceEnd : JVal
  showAs : JVal
  priority : JVal
  isOnline : JVal
  meetingLink : JVal
  attachments : JVal
  repeatWeekly : JVal

/-- `POST /events` (src/server.js:809-830): inserts with defaults
(`category || 'Work'`, `reminder || 15`, `recurrence || 'none'`,
`showAs || 'busy'`, `priority || 'normal'`) and coerces the three boolean
flags with `x ? 1 : 0`; `created_date` and `modified_date` are both set
to now. -/
def createEvent (b : EventBody) (now : String) (st : EvStore) :
    HttpResp × EvStore :=
  let row : EventRow :=
    ⟨st.nextId, bindParam b.userEmail, bindParam b.title,
     bindParam b.description, bindParam b.date, bindParam b.start,
     bindParam b.end_, bindParam b.location,
     bindParam (jsOr b.category (.str "Work")), bindParam b.attendees,
     bindParam (jsOr b.reminder (.num 15)),
     .num (if b.isAllDay.truthy then 1 else 0),
     bindParam (jsOr b.recurrence (.str "none")), bindParam b.recurrenceEnd,
     bindParam (jsOr b.showAs (.str "busy")),
     bindParam (jsOr b.priority (.str "normal")),
     .num (if b.isOnline.truthy then 1 else 0), bindParam b.meetingLink,
     bindParam b.attachments,
     .num (if b.repeatWeekly.truthy then 1 else 0),
     .str now, .str now⟩
  (⟨200, jf "id" (.num st.nextId) ++ jf "title" b.title ++
         jf "description" b.description ++ jf "date" b.date ++
         jf "start" b.start ++ jf "end" b.end_ ++
         jf "location" b.location ++ jf "category" b.category ++
         jf "created_date" (.str now)⟩,
   ⟨st.rows ++ [row], st.nextId + 1⟩)

/-- Row transformation of `PUT /events/:id` (src/server.js:832-853):
full-field update with `x ? 1 : 0` coercion of the three flags and a fresh
`modified_date`. -/
def updateEventRows (rows : List EventRow) (i : Nat) (b : EventBody)
    (now : String) : List EventRow :=
  rows.map (fun r =>
    if r.id = i then
      { r with title := bindParam b.title, description := bindParam b.description,
               event_date := bindParam b.date, start_time := bindParam b.start,
               end_time := bindParam b.end_, location := bindParam b.location,
               category := bindParam b.category,
               attendees := bindParam b.attendees,
               reminder := bindParam b.reminder,
               is_all_day := .num (if b.isAllDay.truthy then 1 else 0),
               recurrence := bindParam b.recurrence,
               recurrence_end := bindParam b.recurrenceEnd,
               show_as := bindParam b.showAs,
               priority := bindParam b.priority,
               is_online := .num (if b.isOnline.truthy then 1 else 0),
               meeting_link := bindParam b.meetingLink,
               attachments := bindParam b.attachments,
               repeat_weekly := .num (if b.repeatWeekly.truthy then 1 else 0),
               modified_date := .str now }
    else r)

/-- SQLite `ORDER BY` comparison of two stored values: NULL sorts before
numbers, numbers before text; numbers by value, text lexicographically. -/
def sqlRank : JVal → Nat
  | .null => 0
  | .undef => 0
  | .bool _ => 1
  | .num _ => 1
  | .str _ => 2
  | .arr _ => 3
  | .obj _ => 3

/-- Lexicographic `≤` on char lists. -/
def charListLe : List Char → List Char → Bool
  | [], _ => true
  | _ :: _, [] => false
  | a :: as, b :: bs =>
      if a = b then charListLe as bs else a.val ≤ b.val

/-- SQLite value `≤` used for `ORDER BY col ASC`. -/
def sqlLe (a b : JVal) : Bool :=
  if sqlRank a ≠ sqlRank b then sqlRank a ≤ sqlRank b
  else
    match a, b with
    | .num x, .num y => x ≤ y
    | .str x, .str y => charListLe x.data y.data
    | _, _ => true

/-- Stable insertion sort modelling SQL `ORDER BY`. -/
def sortBy (le : α → α → Bool) : List α → List α
  | [] => []
  | x :: xs => insertSorted le x (sortBy le xs)
where
  insertSorted (le : α → α → Bool) (x : α) : List α → List α
    | [] => [x]
    | y :: ys => if le x y then x :: y :: ys else y :: insertSorted le x ys

/-- The camelCase event projection returned by `GET /events/:email`. -/
structure EventView where
  id : Nat
  title : JVal
  description : JVal
  date : JVal
  start : JVal
  end_ : JVal
  location : JVal
  category : JVal
  attendees : JVal
  reminder : JVal
  isAllDay : JVal
  recurrence : JVal
  recurrenceEnd : JVal
  showAs : JVal
  priority : JVal
  isOnline : JVal
  meetingLink : JVal
  attachments : JVal
  repeatWeekly : JVal
  createdDate : JVal
  modifiedDate : JVal

/-- `GET /events/:email` (src/server.js:783-807): selects the user's rows
ordered by `event_date ASC, start_time ASC`, renames columns to camelCase
and maps the three flags through `Boolean(...)`. -/
def getEvents (st : EvStore) (email : String) : List EventView :=
  ((sortBy (fun r1 r2 =>
      if sqlLe r1.event_date r2.event_date && sqlLe r2.event_date r1.event_date
      then sqlLe r1.start_time r2.start_time
      else sqlLe r1.event_date r2.event_date)
    (st.rows.filter
      (fun r => sqlEq r.user_email (bindParam (.str email))))).map
    (fun r =>
      ⟨r.id, r.title, r.description, r.event_date, r.start_time, r.end_time,
       r.location, r.category, r.attendees, r.reminder,
       .bool r.is_all_day.truthy, r.recurrence, r.recurrence_end, r.show_as,
       r.priority, .bool r.is_online.truthy, r.meeting_link, r.attachments,
       .bool r.repeat_weekly.truthy, r.created_date, r.modified_date⟩))

/-- `POST /calendar_events` (src/server.js:873-884, legacy): inserts only
the legacy subset of columns; `repeat_weekly` is passed straight to the
driver with no `? 1 : 0` coercion; the other columns keep their schema
defaults (`category` 'Work', `reminder` 15, flags 0, `recurrence` 'none',
`show_as` 'busy', `priority` 'normal'). -/
def legacyCreateCalendarEvent (user_email title description event_date
    start_time end_time repeat_weekly created_date : JVal) (now : String)
    (st : EvStore) : HttpResp × EvStore :=
  let date := jsOr created_date (.str now)
  let row : EventRow :=
    ⟨st.nextId, bindParam user_email, bindParam title, bindParam description,
     bindParam event_date, bindParam start_time, bindParam end_time,
     .null, .str "Work", .null, .num 15, .num 0, .str "none", .null,
     .str "busy", .str "normal", .num 0, .null, .null,
     bindParam repeat_weekly, bindParam date, .null⟩
  (⟨200, jf "id" (.num st.nextId) ++ jf "user_email" user_email ++
         jf "title" title ++ jf "description" description ++
         jf "event_date" event_date ++ jf "start_time" start_time ++
         jf "end_time" end_time ++ jf "repeat_weekly" repeat_weekly ++
         jf "created_date" date⟩,
   ⟨st.rows ++ [row], st.nextId + 1⟩)

/-- Row transformation of `PUT /calendar_events/:id` (src/server.js:886-896,
legacy): updates the legacy subset; `repeat_weekly` is bound raw, with no
coercion, and `modified_date` is not touched. -/
def legacyUpdateCalendarEventRows (rows : List EventRow) (i : Nat)
    (title description event_date start_time end_time repeat_weekly : JVal) :
    List EventRow :=
  rows.map (fun r =>
    if r.id = i then
      { r with title := bindParam title, description := bindParam description,
               event_date := bindParam event_date,
               start_time := bindParam start_time,
               end_time := bindParam end_time,
               repeat_weekly := bindParam repeat_weekly }
    else r)

/-- `GET /calendar_events/:email` (src/server.js:866-871, legacy):
`SELECT * … ORDER BY event_date ASC`; rows are returned as stored, with no
boolean conversion and no renaming. -/
def legacyGetCalendarEvents (st : EvStore) (email : String) : List EventRow :=
  sortBy (fun r1 r2 => sqlLe r1.event_date r2.event_date)
    (st.rows.filter (fun r => sqlEq r.user_email (bindParam (.str email))))

-- ===================== JSON (de)serialization =====================

/-- Escape a string for JSON output (quote and backslash). -/
def jsonEscape (s : String) : String :=
  String.mk (s.data.foldr (fun c acc =>
    if c = '\\' then '\\' :: '\\' :: acc
    else if c = '"' then '\\' :: '"' :: acc
    else c :: acc) [])

/-- `JSON.stringify` on a defined value (`undefined` inside an array
serializes as `null`; object keys with `undefined` values are dropped). -/
def jsonStringify : JVal → String
  | .null => "null"
  | .undef => "null"
  | .bool b => if b then "true" else "false"
  | .num n => toString n
  | .str s => "\"" ++ jsonEscape s ++ "\""
  | .arr xs =>
      "[" ++ String.intercalate ","
        (xs.attach.map (fun x => jsonStringify x.1)) ++ "]"
  | .obj fs =>
      "\x7b" ++ String.intercalate ","
        ((fs.filter (fun f => !f.2.isUndef)).attach.map
          (fun f => "\"" ++ jsonEscape f.1.1 ++ "\":" ++ jsonStringify f.1.2))
        ++ "\x7d"
  decreasing_by
  · have := List.sizeOf_lt_of_mem x.2
    simp only [JVal.arr.sizeOf_spec]
    omega
  · have h1 := List.sizeOf_lt_of_mem (List.mem_of_mem_filter f.2)
    have h2 : sizeOf f.1.2 < sizeOf f.1 := by
      obtain ⟨a, b⟩ := f.1
      simp only [Prod.mk.sizeOf_spec]
      omega
    simp only [JVal.obj.sizeOf_spec]
    omega

/-- Skip JSON whitespace. -/
def skipWs : List Char → List Char
  | c :: cs =>
      if c = ' ' || c = '\t' || c = '\n' || c = '\r' then skipWs cs
      else c :: cs
  | [] => []

/-- Hexadecimal digit test (for `\uXXXX` escapes). -/
def isHexChar (c : Char) : Bool :=
  c.isDigit || ('a' ≤ c && c ≤ 'f') || ('A' ≤ c && c ≤ 'F')

/-- Parse the body of a JSON string literal after the opening quote;
returns the string and the rest after the closing quote. -/
def parseJsonString (fuel : Nat) (cs : List Char) :
    Option (String × List Char) :=
  match fuel with
  | 0 => none
  | fuel + 1 =>
    match cs with
    | [] => none
    | '"' :: rest => some ("", rest)
    | '\\' :: e :: rest =>
        let cont (c : Char) (rem : List Char) : Option (String × List Char) :=
          (parseJsonString fuel rem).map (fun p => (String.mk (c :: p.1.data), p.2))
        if e = '"' then cont '"' rest
        else if e = '\\' then cont '\\' rest
        else if e = '/' then cont '/' rest
        else if e = 'b' then cont '\x08' rest
        else if e = 'f' then cont '\x0c' rest
        else if e = 'n' then cont '\n' rest
        else if e = 'r' then cont '\r' rest
        else if e = 't' then cont '\t' rest
        else if e = 'u' then
          match rest with
          | h1 :: h2 :: h3 :: h4 :: rest' =>
              if isHexChar h1 && isHexChar h2 && isHexChar h3 && isHexChar h4
              then cont '?' rest' else none
          | _ => none
        else none
    | c :: rest =>
        if c.val < 32 then none
        else (parseJsonString fuel rest).map
          (fun p => (String.mk (c :: p.1.data), p.2))

/-- Parse a run of decimal digits; fails when empty. -/
def parseDigits (cs : List Char) : Option (Nat × List Char) :=
  let ds := cs.takeWhile Char.isDigit
  if ds.isEmpty then none
  else some (ds.foldl (fun n c => n * 10 + (c.toNat - 48)) 0, cs.drop ds.length)

/-- Exponent part of a JSON number after the `e`/`E`. -/
def parseJsonExp (cs : List Char) : Option (List Char) :=
  match cs with
  | '+' :: rest => (parseDigits rest).map (fun q => q.2)
  | '-' :: rest => (parseDigits rest).map (fun q => q.2)
  | rest => (parseDigits rest).map (fun q => q.2)

/-- Integer part (with optional fraction and exponent) of a JSON number.
The numeric value is truncated to the integer part — only parse
success/failure matters for the properties proved here. -/
def parseJsonNum (cs : List Char) : Option (Nat × List Char) :=
  (parseDigits cs).bind (fun p =>
    let afterFrac : Option (List Char) :=
      match p.2 with
      | '.' :: rest => (parseDigits rest).map (fun q => q.2)
      | rest => some rest
    afterFrac.bind (fun rest =>
      match rest with
      | 'e' :: rest' => (parseJsonExp rest').map (fun r => (p.1, r))
      | 'E' :: rest' => (parseJsonExp rest').map (fun r => (p.1, r))
      | _ => some (p.1, rest)))

mutual

/-- Recursive-descent JSON value parser (fuel-bounded). -/
def parseJsonVal (fuel : Nat) (cs : List Char) : Option (JVal × List Char) :=
  match fuel with
  | 0 => none
  | fuel + 1 =>
    match skipWs cs with
    | 'n' :: 'u' :: 'l' :: 'l' :: rest => some (.null, rest)
    | 't' :: 'r' :: 'u' :: 'e' :: rest => some (.bool true, rest)
    | 'f' :: 'a' :: 'l' :: 's' :: 'e' :: rest => some (.bool false, rest)
    | '"' :: rest =>
        (parseJsonString fuel rest).map (fun p => (.str p.1, p.2))
    | '[' :: rest =>
        (match skipWs rest with
         | ']' :: rest' => some (.arr [], rest')
         | _ => (parseJsonVal fuel rest).bind (fun p =>
             (parseJsonItems fuel p.2).map
               (fun q => (.arr (p.1 :: q.1), q.2))))
    | '\x7b' :: rest =>
        (match skipWs rest with
         | '\x7d' :: rest' => some (.obj [], rest')
         | _ => (parseJsonMember fuel rest).bind (fun p =>
             (parseJsonMembers fuel p.2).map
               (fun q => (.obj (p.1 :: q.1), q.2))))
    | '-' :: rest =>
        (parseJsonNum rest).map (fun p => (.num (-(p.1 : Int)), p.2))
    | c :: rest =>
        if c.isDigit then
          (parseJsonNum (c :: rest)).map (fun p => (.num (p.1 : Int), p.2))
        else none
    | [] => none

/-- Remaining elements of a JSON array: `,`-separated values then `]`. -/
def parseJsonItems (fuel : Nat) (cs : List Char) :
    Option (List JVal × List Char) :=
  match fuel with
  | 0 => none
  | fuel + 1 =>
    match skipWs cs with
    | ']' :: rest => some ([], rest)
    | ',' :: rest => (parseJsonVal fuel rest).bind (fun p =>
        (parseJsonItems fuel p.2).map (fun q => (p.1 :: q.1, q.2)))
    | _ => none

/-- One `"key" : value` member of a JSON object. -/
def parseJsonMember (fuel : Nat) (cs : List Char) :
    Option ((String × JVal) × List Char) :=
  match fuel with
  | 0 => none
  | fuel + 1 =>
    match skipWs cs with
    | '"' :: rest => (parseJsonString fuel rest).bind (fun k =>
        match skipWs k.2 with
        | ':' :: rest' => (parseJsonVal fuel rest').map
            (fun v => ((k.1, v.1), v.2))
        | _ => none)
    | _ => none

/-- Remaining members of a JSON object: `,`-separated members then the
closing brace. -/
def parseJsonMembers (fuel : Nat) (cs : List Char) :
    Option (List (String × JVal) × List Char) :=
  match fuel with
  | 0 => none
  | fuel + 1 =>
    match skipWs cs with
    | '\x7d' :: rest => some ([], rest)
    | ',' :: rest => (parseJsonMember fuel rest).bind (fun p =>
        (parseJsonMembers fuel p.2).map (fun q => (p.1 :: q.1, q.2)))
    | _ => none

end

/-- `JSON.parse`: parses the whole input (plus surrounding whitespace) or
fails, as the JS built-in throws a `SyntaxError`. -/
def jsonParse (s : String) : Option JVal :=
  (parseJsonVal (s.data.length + 1) s.data).bind (fun p =>
    match skipWs p.2 with
    | [] => some p.1
    | _ => none)

-- ===================== profiles table / PROFILE API =====================

/-- A row of the `profiles` table. -/
structure ProfileRow where
  id : Nat
  user_email : JVal
  full_name : JVal
  designation : JVal
  department : JVal
  institution : JVal
  office_address : JVal
  official_email : JVal
  alternate_email : JVal
  phone : JVal
  website : JVal
  degrees : JVal
  employment : JVal
  research_keywords : JVal
  research_description : JVal
  scholar_link : JVal
  courses : JVal
  grants : JVal
  professional_activities : JVal
  awards : JVal
  skills : JVal
  outreach_service : JVal
  created_date : JVal
  modified_date : JVal

structure ProfStore where
  rows : List ProfileRow
  nextId : Nat

/-- Body of `POST /profile`. -/
structure ProfileBody where
  userEmail : JVal
  fullName : JVal
  designation : JVal
  department : JVal
  institution : JVal
  officeAddress : JVal
  officialEmail : JVal
  alternateEmail : JVal
  phone : JVal
  website : JVal
  degrees : JVal
  employment : JVal
  researchKeywords : JVal
  researchDescription : JVal
  scholarLink : JVal
  courses : JVal
  grants : JVal
  professionalActivities : JVal
  awards : JVal
  skills : JVal
  outreachService : JVal

/-- The full-field UPDATE applied by `POST /profile` to a row matching
the body's `user_email` (src/server.js:980-1004): every column except
`id`, `user_email` and `created_date` is rewritten; the five list fields
are stored as `JSON.stringify(x || [])`; `modified_date` is refreshed. -/
def profileUpdateRow (r : ProfileRow) (b : ProfileBody) (now : String) :
    ProfileRow :=
  { r with full_name := bindParam b.fullName,
           designation := bindParam b.designation,
           department := bindParam b.department,
           institution := bindParam b.institution,
           office_address := bindParam b.officeAddress,
           official_email := bindParam b.officialEmail,
           alternate_email := bindParam b.alternateEmail,
           phone := bindParam b.phone,
           website := bindParam b.website,
           degrees := .str (jsonStringify (jsOr b.degrees (.arr []))),
           employment := .str (jsonStringify (jsOr b.employment (.arr []))),
           research_keywords := bindParam b.researchKeywords,
           research_description := bindParam b.researchDescription,
           scholar_link := bindParam b.scholarLink,
           courses := .str (jsonStringify (jsOr b.courses (.arr []))),
           grants := .str (jsonStringify (jsOr b.grants (.arr []))),
           professional_activities := bindParam b.professionalActivities,
           awards := .str (jsonStringify (jsOr b.awards (.arr []))),
           skills := bindParam b.skills,
           outreach_service := bindParam b.outreachService,
           modified_date := .str now }

/-- The row INSERTed by `POST /profile` when no row matches the body's
`user_email` (src/server.js:1005-1030): both `created_date` and
`modified_date` are set to now. -/
def profileInsertRow (b : ProfileBody) (i : Nat) (now : String) : ProfileRow :=
  ⟨i, bindParam b.userEmail, bindParam b.fullName, bindParam b.designation,
   bindParam b.department, bindParam b.institution,
   bindParam b.officeAddress, bindParam b.officialEmail,
   bindParam b.alternateEmail, bindParam b.phone, bindParam b.website,
   .str (jsonStringify (jsOr b.degrees (.arr []))),
   .str (jsonStringify (jsOr b.employment (.arr []))),
   bindParam b.researchKeywords, bindParam b.researchDescription,
   bindParam b.scholarLink,
   .str (jsonStringify (jsOr b.courses (.arr []))),
   .str (jsonStringify (jsOr b.grants (.arr []))),
   bindParam b.professionalActivities,
   .str (jsonStringify (jsOr b.awards (.arr []))),
   bindParam b.skills, bindParam b.outreachService,
   .str now, .str now⟩

/-- `POST /profile` (src/server.js:949-1033): requires truthy `userEmail`;
then checks `SELECT id FROM profiles WHERE user_email = ?` — if a row
exists it performs the full-field UPDATE `profileUpdateRow` on every
matching row and reports the affected count; otherwise it INSERTs
`profileInsertRow`. -/
def postProfile (b : ProfileBody) (now : String) (st : ProfStore) :
    HttpResp × ProfStore :=
  if !b.userEmail.truthy then
    (⟨400, [("error", .str "User email is required.")]⟩, st)
  else
    let key := bindParam b.userEmail
    match st.rows.find? (fun r => sqlEq r.user_email key) with
    | some _ =>
        (⟨200, [("message", .str "Profile updated successfully"),
                ("updated", .num (st.rows.countP
                  (fun r => sqlEq r.user_email key)))]⟩,
         ⟨st.rows.map (fun r =>
            if sqlEq r.user_email key then profileUpdateRow r b now else r),
          st.nextId⟩)
    | none =>
        (⟨200, [("message", .str "Profile created successfully"),
                ("id", .num st.nextId)]⟩,
         ⟨st.rows ++ [profileInsertRow b st.nextId now], st.nextId + 1⟩)

/-- The string `JSON.parse` receives for a stored column value. -/
def jvalAsString : JVal → String
  | .str s => s
  | .num n => toString n
  | _ => ""

/-- `row.field ? JSON.parse(row.field) : []` — the unguarded
deserialization of a stored list field; `none` models the thrown
`SyntaxError`. -/
def parseListField (v : JVal) : Option JVal :=
  if v.truthy then jsonParse (jvalAsString v) else some (.arr [])

/-- `GET /profile/:email` (src/server.js:906-947): fetch-one by
`user_email`; no row yields the JSON body `null`; a row is projected to a
camelCase object whose five list fields are `JSON.parse`d with no
try/catch — a parse failure escapes the handler and no response is sent
(`Except.error`). -/
def getProfile (st : ProfStore) (email : String) : Except String JVal :=
  match st.rows.find? (fun r => sqlEq r.user_email (bindParam (.str email))) with
  | none => .ok .null
  | some r =>
      match parseListField r.degrees, parseListField r.employment,
            parseListField r.courses, parseListField r.grants,
            parseListField r.awards with
      | some d, some em, some co, some g, some aw =>
          .ok (.obj [("userEmail", r.user_email),
                     ("fullName", r.full_name),
                     ("designation", r.designation),
                     ("department", r.department),
                     ("institution", r.institution),
                     ("officeAddress", r.office_address),
                     ("officialEmail", r.official_email),
                     ("alternateEmail", r.alternate_email),
                     ("phone", r.phone),
                     ("website", r.website),
                     ("degrees", d),
                     ("employment", em),
                     ("researchKeywords", r.research_keywords),
                     ("researchDescription", r.research_description),
                     ("scholarLink", r.scholar_link),
                     ("courses", co),
                     ("grants", g),
                     ("professionalActivities", r.professional_activities),
                     ("awards", aw),
                     ("skills", r.skills),
                     ("outreachService", r.outreach_service)])
      | _, _, _, _, _ => .error "SyntaxError: JSON.parse on malformed stored text"

/-- A concrete request timestamp used in concrete instantiations. -/
def sampleDate : String := "2025-01-01T00:00:00.000Z"

/-- A concrete profile body used to witness the upsert property. -/
def profileBodySample : ProfileBody :=
  ⟨.str "a@x.com", .str "Ada", .null, .null, .null, .null, .null, .null,
   .null, .null, .arr [], .arr [], .null, .null, .null, .arr [], .arr [],
   .null, .arr [], .null, .null⟩

-- ===================== theorems =====================

/-- C8: `POST /register` and `POST /signup` behave identically: for every
hash primitive, request body and starting user store they perform the same
validation, the same normalized-email insert with the same hashing, and
return the same response and store. -/
theorem c8_register_signup_identical (hashFn : String → String)
    (email password : Option String) (st : UserStore) :
    register hashFn email password st = signup hashFn email password st :=
  rfl

/-- C1 counterexample: `POST /ideas` with `user_email` omitted does not
fail with 400 — on an empty store it answers 200 and inserts a row. -/
theorem c1_counterexample :
    (createIdea .undef (.str "t") (.str "c") .undef .undef
      sampleDate ⟨[], 1⟩).1.status = 200 ∧
    (createIdea .undef (.str "t") (.str "c") .undef .undef
      sampleDate ⟨[], 1⟩).2.rows.length = 1 :=
  ⟨rfl, rfl⟩

/-- C1 (amended): the create handlers for Idea, Note, CareerGoal,
FutureWork and Deadline perform no required-field validation: a create
request omitting `user_email` succeeds with status 200 and appends a row
whose `user_email` is SQL NULL. -/
theorem c1_amended_creates_skip_user_email_validation
    (title content category description priority status timeline goal_type
     target_date total_stages current_stage start_date stage_description
     due_date created_date : JVal) (now : String)
    (sti : IdeaStore) (stn : NoteStore) (stc : CareerGoalStore)
    (stf : FutureWorkStore) (std : DeadlineStore) :
    ((createIdea .undef title content category created_date now sti).1.status = 200 ∧
      ∃ r, (createIdea .undef title content category created_date now sti).2.rows
        = sti.rows ++ [r] ∧ r.user_email = .null) ∧
    ((createNote .undef title content created_date now stn).1.status = 200 ∧
      ∃ r, (createNote .undef title content created_date now stn).2.rows
        = stn.rows ++ [r] ∧ r.user_email = .null) ∧
    ((createCareerGoal .undef title description .undef goal_type target_date
        total_stages current_stage start_date stage_description created_date
        now stc).1.status = 200 ∧
      ∃ r, (createCareerGoal .undef title description .undef goal_type
        target_date total_stages current_stage start_date stage_description
        created_date now stc).2.rows = stc.rows ++ [r] ∧ r.user_email = .null) ∧
    ((createFutureWork .undef title description priority timeline created_date
        now stf).1.status = 200 ∧
      ∃ r, (createFutureWork .undef title description priority timeline
        created_date now stf).2.rows = stf.rows ++ [r] ∧ r.user_email = .null) ∧
    ((createDeadline .undef title description due_date priority status
        created_date now std).1.status = 200 ∧
      ∃ r, (createDeadline .undef title description due_date priority status
        created_date now std).2.rows = std.rows ++ [r] ∧ r.user_email = .null) :=
  ⟨⟨rfl, _, rfl, rfl⟩, ⟨rfl, _, rfl, rfl⟩, ⟨rfl, _, rfl, rfl⟩,
   ⟨rfl, _, rfl, rfl⟩, ⟨rfl, _, rfl, rfl⟩⟩

/-- C2 counterexample: `POST /projects` with only name and owner supplied
answers with a body that has no `colleagues` key at all (the raw
`undefined` is dropped by `res.json`), not `colleagues = "[]"`. -/
theorem c2_counterexample :
    ((createProject ⟨.str "Brochure", .str "a@x.com", .undef, .undef⟩
        ⟨[], 1⟩).1.body.lookup "colleagues" = none) ∧
    ((createProject ⟨.str "Brochure", .str "a@x.com", .undef, .undef⟩
        ⟨[], 1⟩).1.body.lookup "progress" = some (.num 0)) :=
  ⟨rfl, rfl⟩

/-- C2 (amended): a successful project create returns the new id and
`progress` defaulted to 0, but the response's `colleagues` key echoes the
raw input and is absent when the input omitted it; the stored row (and
hence a subsequent `GET /projects/:email`) carries `colleagues = "[]"` and
`progress = 0`. -/
theorem c2_amended_create_project_defaults
    (n o : String) (st : ProjStore) (hn : n ≠ "") (ho : o ≠ "") :
    (createProject ⟨.str n, .str o, .undef, .undef⟩ st).1.status = 200 ∧
    (createProject ⟨.str n, .str o, .undef, .undef⟩ st).1.body.lookup "id"
      = some (.num st.nextId) ∧
    (createProject ⟨.str n, .str o, .undef, .undef⟩ st).1.body.lookup "progress"
      = some (.num 0) ∧
    (createProject ⟨.str n, .str o, .undef, .undef⟩ st).1.body.lookup "colleagues"
      = none ∧
    (createProject ⟨.str n, .str o, .undef, .undef⟩ st).2.rows
      = st.rows ++ [⟨st.nextId, .str n, .str o, .str "[]", .num 0⟩] ∧
    (⟨st.nextId, .str n, .str o, .str "[]", .num 0⟩ : ProjectRow)
      ∈ getProjectsByOwner (createProject ⟨.str n, .str o, .undef, .undef⟩ st).2 o := by
  have hn' : (JVal.str n).truthy = true := by simp [JVal.truthy, hn]
  have ho' : (JVal.str o).truthy = true := by simp [JVal.truthy, ho]
  refine ⟨?_, ?_, ?_, ?_, ?_, ?_⟩ <;>
    simp [createProject, getProjectsByOwner, hn', ho', hn, ho, jf, jsOr,
      JVal.isUndef, bindParam, JVal.truthy, List.lookup, sqlEq]

/-- C2 witness. -/
theorem c2_amended_create_project_defaults_witness :
    (createProject ⟨.str "Brochure", .str "a@x.com", .undef, .undef⟩ ⟨[], 1⟩).1.status = 200 ∧
    (createProject ⟨.str "Brochure", .str "a@x.com", .undef, .undef⟩ ⟨[], 1⟩).1.body.lookup "id"
      = some (.num 1) ∧
    (createProject ⟨.str "Brochure", .str "a@x.com", .undef, .undef⟩ ⟨[], 1⟩).1.body.lookup "progress"
      = some (.num 0) ∧
    (createProject ⟨.str "Brochure", .str "a@x.com", .undef, .undef⟩ ⟨[], 1⟩).1.body.lookup "colleagues"
      = none ∧
    (createProject ⟨.str "Brochure", .str "a@x.com", .undef, .undef⟩ ⟨[], 1⟩).2.rows
      = [] ++ [⟨1, .str "Brochure", .str "a@x.com", .str "[]", .num 0⟩] ∧
    (⟨1, .str "Brochure", .str "a@x.com", .str "[]", .num 0⟩ : ProjectRow)
      ∈ getProjectsByOwner (createProject ⟨.str "Brochure", .str "a@x.com", .undef, .undef⟩ ⟨[], 1⟩).2 "a@x.com" :=
  c2_amended_create_project_defaults "Brochure" "a@x.com" ⟨[], 1⟩
    (by decide) (by decide)

/-- C9 counterexample: `PUT /projects/:id` with `progress` omitted writes
`progress = 0` (a default), not SQL NULL. -/
theorem c9_counterexample :
    (updateProjectRows [⟨1, .str "p", .str "a@x.com", .str "[]", .num 50⟩] 1
      ⟨.str "p2", .undef, .str "[]", .undef⟩).map ProjectRow.progress
      = [.num 0] ∧
    JVal.num 0 ≠ JVal.null :=
  ⟨rfl, by simp⟩

/-- C9 (amended): update-by-id is a full replacement in which absent
mutable fields are bound as SQL NULL (shown for `PUT /ideas/:id`), except
that `PUT /projects/:id` substitutes the default 0 for an absent
`progress` instead of writing NULL. -/
theorem c9_amended_update_full_replacement
    (pr : List ProjectRow) (ir : List IdeaRow) (i : Nat) (n c : JVal) :
    (∀ r' ∈ updateProjectRows pr i ⟨n, .undef, c, .undef⟩,
        r'.id = i → r'.progress = .num 0 ∧ r'.name = bindParam n ∧
          r'.colleagues = bindParam c) ∧
    (∀ r' ∈ updateIdeaRows ir i .undef .undef .undef,
        r'.id = i → r'.title = .null ∧ r'.content = .null ∧
          r'.category = .null) := by
  constructor
  · intro r' hr' hid
    obtain ⟨r, _, rfl⟩ := List.mem_map.mp hr'
    by_cases h : r.id = i <;>
      simp [h, updateProjectRows, bindParam, JVal.isUndef] at hid ⊢
  · intro r' hr' hid
    obtain ⟨r, _, rfl⟩ := List.mem_map.mp hr'
    by_cases h : r.id = i <;>
      simp [h, updateIdeaRows, bindParam] at hid ⊢

/-- C10: update-by-id on ideas, notes and deadlines keeps every row's
`id`, `user_email` and `created_date` unchanged and leaves every row with
a different id entirely unchanged. -/
theorem c10_update_immutable_ownership_and_frame
    (ir : List IdeaRow) (nr : List NoteRow) (dr : List DeadlineRow) (i : Nat)
    (t c g ttl cnt dt de dd dp ds : JVal) :
    List.Forall₂ (fun r r' => r'.id = r.id ∧ r'.user_email = r.user_email ∧
        r'.created_date = r.created_date ∧ (r.id ≠ i → r' = r))
      ir (updateIdeaRows ir i t c g) ∧
    List.Forall₂ (fun r r' => r'.id = r.id ∧ r'.user_email = r.user_email ∧
        r'.created_date = r.created_date ∧ (r.id ≠ i → r' = r))
      nr (updateNoteRows nr i ttl cnt) ∧
    List.Forall₂ (fun r r' => r'.id = r.id ∧ r'.user_email = r.user_email ∧
        r'.created_date = r.created_date ∧ (r.id ≠ i → r' = r))
      dr (updateDeadlineRows dr i dt de dd dp ds) := by
  refine ⟨?_, ?_, ?_⟩
  · induction ir with
    | nil => simp [updateIdeaRows]
    | cons r rs ih =>
        refine List.Forall₂.cons ?_ ih
        by_cases h : r.id = i <;> simp [updateIdeaRows, h]
  · induction nr with
    | nil => simp [updateNoteRows]
    | cons r rs ih =>
        refine List.Forall₂.cons ?_ ih
        by_cases h : r.id = i <;> simp [updateNoteRows, h]
  · induction dr with
    | nil => simp [updateDeadlineRows]
    | cons r rs ih =>
        refine List.Forall₂.cons ?_ ih
        by_cases h : r.id = i <;> simp [updateDeadlineRows, h]

/-- C6: the deserialization of Profile's list fields on read is unguarded:
for a stored row whose `degrees` column holds the non-empty non-JSON text
"xyz", `GET /profile/:email` propagates the parse failure instead of
producing a response. -/
theorem c6_unguarded_profile_list_deserialization :
    ("xyz" : String) ≠ "" ∧
    jsonParse "xyz" = none ∧
    getProfile
      ⟨[⟨1, .str "a@x.com", .null, .null, .null, .null, .null, .null, .null,
         .null, .null, .str "xyz", .str "[]", .null, .null, .null, .str "[]",
         .str "[]", .null, .str "[]", .null, .null,
         .str "2025-01-01T00:00:00.000Z", .str "2025-01-01T00:00:00.000Z"⟩],
        2⟩ "a@x.com"
      = .error "SyntaxError: JSON.parse on malformed stored text" :=
  ⟨by decide, rfl, rfl⟩

/-- C7: with email and password both present, a login for an email that
was never registered and a login with a registered email but a
non-matching password produce identical responses: status 400 and the
body `success: false, message: "Invalid credentials."`. -/
theorem c7_login_failure_indistinguishable
    (cmp : String → String → Bool) (st : UserStore)
    (e1 p1 e2 p2 : String) (u : UserRow)
    (h1 : e1 ≠ "") (h2 : p1 ≠ "") (h3 : e2 ≠ "") (h4 : p2 ≠ "")
    (hfind1 : st.rows.find? (fun r => r.email == normEmail e1) = none)
    (hfind2 : st.rows.find? (fun r => r.email == normEmail e2) = some u)
    (hcmp : cmp p2 u.password = false) :
    login cmp (some e1) (some p1) st = login cmp (some e2) (some p2) st ∧
    login cmp (some e1) (some p1) st =
      ⟨400, [("success", .bool false),
             ("message", .str "Invalid credentials.")]⟩ := by
  have : login cmp (some e1) (some p1) st =
      ⟨400, [("success", .bool false),
             ("message", .str "Invalid credentials.")]⟩ := by
    simp [login, presentStr, h1, h2, hfind1]
  have h' : login cmp (some e2) (some p2) st =
      ⟨400, [("success", .bool false),
             ("message", .str "Invalid credentials.")]⟩ := by
    simp [login, presentStr, h3, h4, hfind2, hcmp]
  exact ⟨this.trans h'.symm, this⟩

/-- C7 witness. -/
theorem c7_login_failure_indistinguishable_witness :
    login (fun _ _ => false) (some "b@x.com") (some "pw1")
        ⟨[⟨1, "a@x.com", "HASH"⟩], 2⟩
      = login (fun _ _ => false) (some "a@x.com") (some "pw2")
        ⟨[⟨1, "a@x.com", "HASH"⟩], 2⟩ ∧
    login (fun _ _ => false) (some "b@x.com") (some "pw1")
        ⟨[⟨1, "a@x.com", "HASH"⟩], 2⟩
      = ⟨400, [("success", .bool false),
               ("message", .str "Invalid credentials.")]⟩ :=
  c7_login_failure_indistinguishable (fun _ _ => false)
    ⟨[⟨1, "a@x.com", "HASH"⟩], 2⟩ "b@x.com" "pw1" "a@x.com" "pw2"
    ⟨1, "a@x.com", "HASH"⟩ (by decide) (by decide) (by decide) (by decide)
    (by rfl) (by rfl) (by rfl)

/-- Membership is invariant under `sortBy.insertSorted`. -/
theorem mem_insertSorted {α : Type} {le : α → α → Bool} {x y : α}
    {l : List α} : y ∈ sortBy.insertSorted le x l ↔ y = x ∨ y ∈ l := by
  induction l with
  | nil => simp [sortBy.insertSorted]
  | cons a as ih =>
      simp only [sortBy.insertSorted]
      (split <;> simp [ih]); tauto

/-- Membership is invariant under `sortBy` (SQL `ORDER BY` reorders,
never adds or removes rows). -/
theorem mem_sortBy {α : Type} {le : α → α → Bool} {x : α} {l : List α} :
    x ∈ sortBy le l ↔ x ∈ l := by
  induction l with
  | nil => simp [sortBy]
  | cons a as ih => simp [sortBy, mem_insertSorted, ih]

/-- C4: an event created through the canonical `POST /events` with
boolean `isAllDay`, `isOnline` and `repeatWeekly` flags reads back through
`GET /events/:email` with each flag strictly equal to the supplied
boolean (`true` stays `true`, `false` stays `false`), not 1 or "1". -/
theorem c4_event_boolean_flags_roundtrip
    (b : EventBody) (e now : String) (st : EvStore) (b1 b2 b3 : Bool)
    (hu : b.userEmail = .str e)
    (h1 : b.isAllDay = .bool b1) (h2 : b.isOnline = .bool b2)
    (h3 : b.repeatWeekly = .bool b3)
    (hid : ∀ r ∈ st.rows, r.id ≠ st.nextId) :
    (∃ v ∈ getEvents (createEvent b now st).2 e, v.id = st.nextId) ∧
    (∀ v ∈ getEvents (createEvent b now st).2 e, v.id = st.nextId →
      v.isAllDay = .bool b1 ∧ v.isOnline = .bool b2 ∧
        v.repeatWeekly = .bool b3) := by
  have hrow : (createEvent b now st).2.rows
      = st.rows ++ [⟨st.nextId, bindParam b.userEmail, bindParam b.title,
        bindParam b.description, bindParam b.date, bindParam b.start,
        bindParam b.end_, bindParam b.location,
        bindParam (jsOr b.category (.str "Work")), bindParam b.attendees,
        bindParam (jsOr b.reminder (.num 15)),
        .num (if b.isAllDay.truthy then 1 else 0),
        bindParam (jsOr b.recurrence (.str "none")), bindParam b.recurrenceEnd,
        bindParam (jsOr b.showAs (.str "busy")),
        bindParam (jsOr b.priority (.str "normal")),
        .num (if b.isOnline.truthy then 1 else 0), bindParam b.meetingLink,
        bindParam b.attachments,
        .num (if b.repeatWeekly.truthy then 1 else 0),
        .str now, .str now⟩] := rfl
  constructor
  · exact ⟨_, List.mem_map.mpr ⟨⟨st.nextId, bindParam b.userEmail,
      bindParam b.title, bindParam b.description, bindParam b.date,
      bindParam b.start, bindParam b.end_, bindParam b.location,
      bindParam (jsOr b.category (.str "Work")), bindParam b.attendees,
      bindParam (jsOr b.reminder (.num 15)),
      .num (if b.isAllDay.truthy then 1 else 0),
      bindParam (jsOr b.recurrence (.str "none")), bindParam b.recurrenceEnd,
      bindParam (jsOr b.showAs (.str "busy")),
      bindParam (jsOr b.priority (.str "normal")),
      .num (if b.isOnline.truthy then 1 else 0), bindParam b.meetingLink,
      bindParam b.attachments,
      .num (if b.repeatWeekly.truthy then 1 else 0),
      .str now, .str now⟩, mem_sortBy.mpr (List.mem_filter.mpr
        ⟨List.mem_append_right _ (List.mem_singleton_self _),
         by simp [hu, bindParam, sqlEq]⟩), rfl⟩, rfl⟩
  · intro v hv hvid
    simp only [getEvents, List.mem_map] at hv
    obtain ⟨r, hr, rfl⟩ := hv
    rw [mem_sortBy, List.mem_filter, hrow] at hr
    rcases List.mem_append.mp hr.1 with hold | hnew
    · exact absurd hvid (hid r hold)
    · rw [List.mem_singleton] at hnew
      subst hnew
      cases b1 <;> cases b2 <;> cases b3 <;> simp [h1, h2, h3, JVal.truthy]

/-- C4 witness. -/
theorem c4_event_boolean_flags_roundtrip_witness :
    ((∃ v ∈ getEvents (createEvent
        ⟨.str "a@x.com", .str "T", .null, .str "2025-01-02", .str "09:00",
         .str "10:00", .null, .null, .null, .null, .bool true, .null, .null,
         .null, .null, .bool false, .null, .null, .bool true⟩
        "2025-01-01T00:00:00.000Z" ⟨[], 1⟩).2 "a@x.com", v.id = 1) ∧
     (∀ v ∈ getEvents (createEvent
        ⟨.str "a@x.com", .str "T", .null, .str "2025-01-02", .str "09:00",
         .str "10:00", .null, .null, .null, .null, .bool true, .null, .null,
         .null, .null, .bool false, .null, .null, .bool true⟩
        "2025-01-01T00:00:00.000Z" ⟨[], 1⟩).2 "a@x.com", v.id = 1 →
        v.isAllDay = .bool true ∧ v.isOnline = .bool false ∧
          v.repeatWeekly = .bool true)) :=
  c4_event_boolean_flags_roundtrip
    ⟨.str "a@x.com", .str "T", .null, .str "2025-01-02", .str "09:00",
     .str "10:00", .null, .null, .null, .null, .bool true, .null, .null,
     .null, .null, .bool false, .null, .null, .bool true⟩
    "a@x.com" "2025-01-01T00:00:00.000Z" ⟨[], 1⟩ true false true
    rfl rfl rfl rfl (by simp)

/-- C5 counterexample: an event stored through canonical `POST /events`
with `repeatWeekly = true`, read back through the legacy
`GET /calendar_events/:email`, comes back with `repeat_weekly` equal to
the integer 1 — this read path does not return the flag as true/false. -/
theorem c5_counterexample :
    (legacyGetCalendarEvents (createEvent
        ⟨.str "a@x.com", .str "T", .null, .str "2025-01-02", .str "09:00",
         .str "10:00", .null, .null, .null, .null, .bool false, .null, .null,
         .null, .null, .bool false, .null, .null, .bool true⟩
        "2025-01-01T00:00:00.000Z" ⟨[], 1⟩).2 "a@x.com").map
      EventRow.repeat_weekly = [.num 1] ∧
    (∀ bb : Bool, JVal.num 1 ≠ JVal.bool bb) :=
  ⟨rfl, by simp⟩

/-- C5 (amended): only the canonical `/events` endpoints implement the
boolean coercion — `POST /events` and `PUT /events/:id` store the three
flags as the integers 0/1 and `GET /events/:email` returns them as
booleans; the legacy `POST /calendar_events` and `PUT /calendar_events/:id`
bind `repeat_weekly` exactly as the driver receives it (SQL NULL when
omitted), and the legacy `GET /calendar_events/:email` returns stored rows
unchanged, with no boolean conversion. -/
theorem c5_amended_flag_coercion_canonical_only
    (b : EventBody) (rows : List EventRow) (i : Nat) (now : String)
    (st : EvStore) (e : String)
    (user_email title description event_date start_time end_time cd rw : JVal) :
    (∃ r, (createEvent b now st).2.rows = st.rows ++ [r] ∧
      (r.is_all_day = .num 0 ∨ r.is_all_day = .num 1) ∧
      (r.is_online = .num 0 ∨ r.is_online = .num 1) ∧
      (r.repeat_weekly = .num 0 ∨ r.repeat_weekly = .num 1)) ∧
    (∀ r' ∈ updateEventRows rows i b now, r'.id = i →
      (r'.is_all_day = .num 0 ∨ r'.is_all_day = .num 1) ∧
      (r'.is_online = .num 0 ∨ r'.is_online = .num 1) ∧
      (r'.repeat_weekly = .num 0 ∨ r'.repeat_weekly = .num 1)) ∧
    (∀ v ∈ getEvents st e, (∃ x, v.isAllDay = .bool x) ∧
      (∃ x, v.isOnline = .bool x) ∧ (∃ x, v.repeatWeekly = .bool x)) ∧
    (∃ r, (legacyCreateCalendarEvent user_email title description event_date
        start_time end_time .undef cd now st).2.rows = st.rows ++ [r] ∧
      r.repeat_weekly = .null) ∧
    (∀ r' ∈ legacyUpdateCalendarEventRows rows i title description event_date
        start_time end_time rw, r'.id = i → r'.repeat_weekly = bindParam rw) ∧
    (∀ r' ∈ legacyGetCalendarEvents st e, r' ∈ st.rows) := by
  refine ⟨⟨_, rfl, ?_, ?_, ?_⟩, ?_, ?_, ⟨_, rfl, rfl⟩, ?_, ?_⟩
  · cases b.isAllDay.truthy <;> simp
  · cases b.isOnline.truthy <;> simp
  · cases b.repeatWeekly.truthy <;> simp
  · intro r' hr' hid
    obtain ⟨r, _, rfl⟩ := List.mem_map.mp hr'
    by_cases h : r.id = i
    · simp only [updateEventRows, h, if_true]
      refine ⟨?_, ?_, ?_⟩ <;> [cases b.isAllDay.truthy; cases b.isOnline.truthy;
        cases b.repeatWeekly.truthy] <;> simp
    · simp [updateEventRows, h] at hid
  · intro v hv
    obtain ⟨r, _, rfl⟩ := List.mem_map.mp hv
    exact ⟨⟨_, rfl⟩, ⟨_, rfl⟩, ⟨_, rfl⟩⟩
  · intro r' hr' hid
    obtain ⟨r, _, rfl⟩ := List.mem_map.mp hr'
    by_cases h : r.id = i
    · simp [legacyUpdateCalendarEventRows, h]
    · simp [legacyUpdateCalendarEventRows, h] at hid
  · intro r' hr'
    exact List.mem_of_mem_filter (mem_sortBy.mp hr')

/-- C3: `POST /profile` is idempotent for a fixed input with a
`userEmail`: starting from a store with no row for that email, saving the
same profile twice leaves exactly one row for that `user_email`; the
second save takes the update branch (message "Profile updated
successfully", affected count 1), the row's `created_date` is still the
first save's timestamp and its `modified_date` is the second save's. -/
theorem c3_profile_upsert_idempotent
    (b : ProfileBody) (e t1 t2 : String) (st : ProfStore)
    (hb : b.userEmail = .str e) (he : e ≠ "")
    (hst : ∀ r ∈ st.rows, sqlEq r.user_email (.str e) = false) :
    ((postProfile b t2 (postProfile b t1 st).2).1.body.lookup "message"
       = some (.str "Profile updated successfully")) ∧
    ((postProfile b t2 (postProfile b t1 st).2).1.body.lookup "updated"
       = some (.num 1)) ∧
    ((postProfile b t2 (postProfile b t1 st).2).2.rows.countP
       (fun r => sqlEq r.user_email (.str e)) = 1) ∧
    (∀ r ∈ (postProfile b t2 (postProfile b t1 st).2).2.rows,
       sqlEq r.user_email (.str e) = true →
         r.created_date = .str t1 ∧ r.modified_date = .str t2) := by
  have htr : b.userEmail.truthy = true := by rw [hb]; simp [JVal.truthy, he]
  have hkey : bindParam b.userEmail = JVal.str e := by rw [hb]; rfl
  have hee : sqlEq (JVal.str e) (JVal.str e) = true := by simp [sqlEq]
  have hfind1 : st.rows.find?
      (fun r => sqlEq r.user_email (bindParam b.userEmail)) = none :=
    List.find?_eq_none.mpr (by intro r hr; rw [hkey]; simp [hst r hr])
  have h1 : (postProfile b t1 st).2
      = ⟨st.rows ++ [profileInsertRow b st.nextId t1], st.nextId + 1⟩ := by
    simp [postProfile, htr, hfind1]
  have hirow : (profileInsertRow b st.nextId t1).user_email = JVal.str e := by
    simp [profileInsertRow, hkey]
  have hfind2 : ((st.rows ++ [profileInsertRow b st.nextId t1]).find?
      (fun r => sqlEq r.user_email (bindParam b.userEmail)))
      = some (profileInsertRow b st.nextId t1) := by
    rw [List.find?_append, hfind1]
    simp [hirow, hkey, hee]
  have hcnt0 : st.rows.countP (fun r => sqlEq r.user_email (JVal.str e)) = 0 :=
    List.countP_eq_zero.mpr (fun r hr => by simp [hst r hr])
  have hmap : ∀ l : List ProfileRow,
      (∀ r ∈ l, sqlEq r.user_email (JVal.str e) = false) →
      l.map (fun r => if sqlEq r.user_email (JVal.str e)
        then profileUpdateRow r b t2 else r) = l := by
    intro l hl
    induction l with
    | nil => rfl
    | cons a as ih =>
        simp only [List.map_cons, hl a (by simp), if_false, List.cons.injEq,
          Bool.false_eq_true]
        exact ⟨trivial, ih (fun r hr => hl r (by simp [hr]))⟩
  have h2 : postProfile b t2
      ⟨st.rows ++ [profileInsertRow b st.nextId t1], st.nextId + 1⟩
      = (⟨200, [("message", .str "Profile updated successfully"),
                ("updated", .num 1)]⟩,
         ⟨st.rows ++ [profileUpdateRow (profileInsertRow b st.nextId t1) b t2],
          st.nextId + 1⟩) := by
    simp only [postProfile, htr, Bool.not_true, Bool.false_eq_true, if_false,
      hfind2]
    rw [hkey, List.countP_append, hcnt0, List.map_append, hmap st.rows hst]
    simp [List.countP_cons, hirow, hee]
  rw [h1, h2]
  have hu : (profileUpdateRow (profileInsertRow b st.nextId t1) b t2).user_email
      = JVal.str e := hirow
  refine ⟨rfl, rfl, ?_, ?_⟩
  · rw [List.countP_append, hcnt0]
    simp [List.countP_cons, hu, hee]
  · intro r hr htrue
    rcases List.mem_append.mp hr with h | h
    · rw [hst r h] at htrue
      exact absurd htrue (by simp)
    · rw [List.mem_singleton] at h
      subst h
      exact ⟨rfl, rfl⟩

/-- C3 witness. -/
theorem c3_profile_upsert_idempotent_witness :
    ((postProfile profileBodySample "2025-01-02T00:00:00.000Z"
        (postProfile profileBodySample "2025-01-01T00:00:00.000Z"
          ⟨[], 1⟩).2).1.body.lookup "message"
       = some (.str "Profile updated successfully")) ∧
    ((postProfile profileBodySample "2025-01-02T00:00:00.000Z"
        (postProfile profileBodySample "2025-01-01T00:00:00.000Z"
          ⟨[], 1⟩).2).1.body.lookup "updated" = some (.num 1)) ∧
    ((postProfile profileBodySample "2025-01-02T00:00:00.000Z"
        (postProfile profileBodySample "2025-01-01T00:00:00.000Z"
          ⟨[], 1⟩).2).2.rows.countP
       (fun r => sqlEq r.user_email (.str "a@x.com")) = 1) ∧
    (∀ r ∈ (postProfile profileBodySample "2025-01-02T00:00:00.000Z"
        (postProfile profileBodySample "2025-01-01T00:00:00.000Z"
          ⟨[], 1⟩).2).2.rows,
       sqlEq r.user_email (.str "a@x.com") = true →
         r.created_date = .str "2025-01-01T00:00:00.000Z" ∧
         r.modified_date = .str "2025-01-02T00:00:00.000Z") :=
  c3_profile_upsert_idempotent profileBodySample "a@x.com"
    "2025-01-01T00:00:00.000Z" "2025-01-02T00:00:00.000Z" ⟨[], 1⟩
    rfl (by decide) (by simp)
